import Mathlib

/-!
Shallow embedding of the car-reservation app (src/app.py).

Modelling conventions, faithful to the source:
* Times of day are stored as zero-padded "HH:MM" strings in SQLite and are
  compared there lexicographically; for such strings lexicographic order
  coincides with numeric order on minutes-since-midnight, so a time of day is
  embedded as a `Nat` (minutes, `0 ≤ t < 1440`).  `time(h, m)` becomes
  `60 * h + m`; `end_dt.strftime` of a datetime that has rolled past midnight
  yields the wrapped time of day, i.e. `(start + d) % 1440`.
* Dates are stored as ISO "YYYY-MM-DD" strings and compared lexicographically,
  which coincides with chronological order; a date is embedded as a `Nat`.
* The status strings are embedded as an enumeration: the "reserved" string
  becomes `Status.Reserved` and the "cancelled" string `Status.Cancelled`.
* The SQLite table rows become a `List Reservation`; the auto-assigned `id`
  column is never read by the logic under verification and is omitted.
-/

namespace CarApp

/-- Reservation status: the two SQLite status strings. -/
inductive Status where
  | Reserved
  | Cancelled
deriving DecidableEq, Repr

/-- One row of the `reservations` table (minus the opaque `id`). -/
structure Reservation where
  name : String
  date : Nat
  start_time : Nat
  end_time : Nat
  car : String
  status : Status
deriving DecidableEq, Repr

/-- src/app.py line 71: `all_slots = [time(h, m) for h in range(0, 24) for m in range(0, 60, 15)]`. -/
def allSlots : List Nat :=
  (List.range 24).flatMap (fun h => (List.range' 0 4 15).map (fun m => 60 * h + m))

/-- src/app.py lines 64-68: the SQL
`SELECT * FROM reservations WHERE date=:date AND car=:car AND status='Reserved'`. -/
def fetchReserved (db : List Reservation) (date : Nat) (car : String) : List Reservation :=
  db.filter (fun r => decide (r.date = date ∧ r.car = car ∧ r.status = Status.Reserved))

/-- src/app.py lines 76-81: the inner expansion loop
`t = s; while t < e: unavailable_slots.append(t.time()); t += timedelta(minutes=15)`.
Both `s` and `e` are parsed onto the same reference day, so the comparison
`t < e` is a plain comparison of minutes.  The loop visits `t = s + 15 * k`
exactly while `t < e`, i.e. for `k < ⌈(e - s) / 15⌉` iterations, which is the
arithmetic progression below. -/
def slotsFrom (s e : Nat) : List Nat :=
  List.range' s ((e - s + 14) / 15) 15

/-- src/app.py lines 74-81: the outer loop over the rows of `df_existing`,
appending each row's expansion. -/
def unavailableSlots : List Reservation → List Nat
  | [] => []
  | r :: rest => slotsFrom r.start_time r.end_time ++ unavailableSlots rest

/-- The blocked-slot set for a `(date, car)` query: the expansion of the rows
returned by the SQL filter of lines 64-68. -/
def blockedSlots (db : List Reservation) (date : Nat) (car : String) : List Nat :=
  unavailableSlots (fetchReserved db date car)

/-- src/app.py lines 84-88:
`[t for t in all_slots if (last_end_time is None or t >= last_end_time) and t not in unavailable_slots]`. -/
def availableStartSlots (blocked : List Nat) (lastEndTime : Option Nat) : List Nat :=
  allSlots.filter (fun t =>
    (match lastEndTime with
     | none => true
     | some l => decide (l ≤ t)) && !(decide (t ∈ blocked)))

/-- src/app.py line 102: `durations = [15 * i for i in range(2, 24 * 4 + 1)]`. -/
def durationsList : List Nat :=
  (List.range' 2 (24 * 4 - 1)).map (fun i => 15 * i)

/-- src/app.py lines 108-124: the per-candidate SQL
`SELECT * FROM reservations WHERE car = :car AND date = :date AND status='Reserved'
 AND NOT (end_time <= :start OR start_time >= :end)`,
with `:start`/`:end` the "HH:MM" strings compared lexicographically, i.e. as
minutes of day. -/
def overlapQuery (db : List Reservation) (car : String) (date : Nat) (s e : Nat) :
    List Reservation :=
  db.filter (fun r =>
    decide (r.car = car ∧ r.date = date ∧ r.status = Status.Reserved ∧
      ¬(r.end_time ≤ s ∨ r.start_time ≥ e)))

/-- src/app.py lines 103-127: `valid_durations`.  For each candidate `d` the
query end parameter is `end_dt.strftime`, i.e. the wrapped time of day
`(start + d) % 1440`; the candidate is kept when the query returns no row. -/
def validDurations (db : List Reservation) (car : String) (date : Nat) (startT : Nat) :
    List Nat :=
  durationsList.filter (fun d =>
    (overlapQuery db car date startT ((startT + d) % 1440)).isEmpty)

/-- The half-open interval overlap test of the spec (section 4.2):
`[a0, a1)` and `[b0, b1)` overlap iff `NOT (a1 <= b0 OR a0 >= b1)`. -/
def intervalsOverlap (a0 a1 b0 b1 : Nat) : Prop :=
  ¬(a1 ≤ b0 ∨ a0 ≥ b1)

instance (a0 a1 b0 b1 : Nat) : Decidable (intervalsOverlap a0 a1 b0 b1) := by
  unfold intervalsOverlap; infer_instance

/-- The duration filter as worded by the spec and claim C2: candidate `d` is
accepted iff for every Reserved reservation on that resource/date the proposed
interval `[startT, startT + d)` (end NOT wrapped at midnight) does not overlap
the stored `[r.start_time, r.end_time)`.  Kept separate from `validDurations`
(the code) so the two can be compared. -/
def specValidDurations (db : List Reservation) (car : String) (date : Nat) (startT : Nat) :
    List Nat :=
  durationsList.filter (fun d =>
    db.all (fun r =>
      !(decide (r.car = car ∧ r.date = date ∧ r.status = Status.Reserved ∧
        intervalsOverlap startT (startT + d) r.start_time r.end_time))))

/-- The per-user Streamlit session state used by the flow:
`st.session_state.last_end_time` and `st.session_state.last_end_date`. -/
structure SessionState where
  lastEndTime : Option Nat
  lastEndDate : Option Nat
deriving DecidableEq, Repr

/-- src/app.py lines 59-61: on each form render,
`if last_end_date != reserve_date: last_end_time = None; last_end_date = reserve_date`. -/
def renderReset (st : SessionState) (reserve_date : Nat) : SessionState :=
  if st.lastEndDate ≠ some reserve_date then
    { lastEndTime := none, lastEndDate := some reserve_date }
  else st

/-- A session event: rendering the form for a date (which runs the reset of
lines 59-61 and then computes the selectable starts), or a successful
submission whose stored end time of day is `endT` (line 163 sets
`last_end_time = end_dt.time()`). -/
inductive Event where
  | eval (d : Nat)
  | create (endT : Nat)
deriving DecidableEq, Repr

/-- Effect of one event on the session state. -/
def stepState (st : SessionState) : Event → SessionState
  | Event.eval d => renderReset st d
  | Event.create endT => { st with lastEndTime := some endT }

/-- A whole session: fold the events over the state. -/
def runTrace (st : SessionState) (evs : List Event) : SessionState :=
  evs.foldl stepState st

/-- The characters removed by Python `str.strip()`: exactly those for which
`str.isspace()` holds, i.e. U+0009-U+000D, U+001C-U+001F, U+0020, U+0085
(next line), U+00A0 (no-break space), U+1680 (ogham space mark),
U+2000-U+200A (en/em/thin/hair spaces), U+2028, U+2029 (line/paragraph
separators), U+202F (narrow no-break space), U+205F (medium mathematical
space) and U+3000 (ideographic full-width space). -/
def isPySpace (c : Char) : Bool :=
  let n := c.toNat
  (9 ≤ n && n ≤ 13) || (28 ≤ n && n ≤ 31) || n == 32 || n == 133 || n == 160 ||
  n == 5760 || (8192 ≤ n && n ≤ 8202) || n == 8232 || n == 8233 || n == 8239 ||
  n == 8287 || n == 12288

/-- Python `name.strip()`: drop whitespace from both ends. -/
def pyStrip (s : String) : String :=
  String.mk (((s.data.dropWhile isPySpace).reverse.dropWhile isPySpace).reverse)

/-- Outcome of a submission. -/
inductive SubmitResult where
  | validationError
  | created (endT : Nat)
deriving DecidableEq, Repr

/-- src/app.py lines 142-165: the submit handler.  `if not name.strip()` shows
an error and touches nothing; otherwise the row is inserted (status defaults
to Reserved, stored end time is the wrapped `(start + dur) % 1440`) and
`last_end_time` becomes that end time of day. -/
def handleSubmit (db : List Reservation) (st : SessionState) (name : String)
    (reserve_date : Nat) (car : String) (start_time dur : Nat) :
    List Reservation × SessionState × SubmitResult :=
  if pyStrip name = "" then (db, st, SubmitResult.validationError)
  else
    let endT := (start_time + dur) % 1440
    (db ++ [{ name := name, date := reserve_date, start_time := start_time,
              end_time := endT, car := car, status := Status.Reserved }],
     { st with lastEndTime := some endT },
     SubmitResult.created endT)

/-- src/app.py lines 33-37, effect on one row: the SQL
`UPDATE reservations SET status='Cancelled' WHERE date < :today AND status='Reserved'`
turns a Reserved row dated strictly before today into a Cancelled one and
leaves every other row alone. -/
def expireRow (today : Nat) (r : Reservation) : Reservation :=
  if r.date < today ∧ r.status = Status.Reserved then
    { r with status := Status.Cancelled }
  else r

/-- src/app.py lines 33-37: the expiry sweep applies that update to every row
of the table. -/
def cancelExpired (db : List Reservation) (today : Nat) : List Reservation :=
  db.map (expireRow today)

/-! ### Concrete fixtures used by counterexamples and witnesses -/

/-- An existing booking 13:00-14:00 on 2024-06-01 for VOXY. -/
def resA : Reservation :=
  { name := "a", date := 20240601, start_time := 780, end_time := 840,
    car := "VOXY", status := Status.Reserved }

/-- A one-row table holding `resA`. -/
def db1 : List Reservation := [resA]

/-- The spec's scenario table: bookings 09:00-10:00 and 12:00-13:00 on
2024-06-01 for VOXY. -/
def db6 : List Reservation :=
  [{ name := "x", date := 20240601, start_time := 540, end_time := 600,
     car := "VOXY", status := Status.Reserved },
   { name := "y", date := 20240601, start_time := 720, end_time := 780,
     car := "VOXY", status := Status.Reserved }]

/-- A stored reservation 23:00 - 01:00 (a midnight-crossing booking, whose end
time of day is before its start). -/
def r3 : Reservation :=
  { name := "n", date := 1, start_time := 1380, end_time := 60,
    car := "VOXY", status := Status.Reserved }

/-! ### Helper lemmas -/

/-- The expansion loop produces nothing when the parsed end does not lie
strictly after the parsed start. -/
theorem slotsFrom_eq_nil (s e : Nat) (h : e ≤ s) : slotsFrom s e = [] := by
  unfold slotsFrom
  have h0 : (e - s + 14) / 15 = 0 := by omega
  rw [h0, List.range'_zero]

/-- Membership in the expansion loop's output: exactly the marks
`s, s + 15, s + 30, …` that lie strictly below `e`. -/
theorem mem_slotsFrom (s e m : Nat) :
    m ∈ slotsFrom s e ↔ ∃ k, m = s + 15 * k ∧ m < e := by
  unfold slotsFrom
  rw [List.mem_range']
  constructor
  · rintro ⟨i, hi, rfl⟩
    exact ⟨i, rfl, by omega⟩
  · rintro ⟨k, rfl, hk⟩
    exact ⟨k, by omega, rfl⟩

/-- Membership in the union of the rows' expansions. -/
theorem mem_unavailableSlots (rows : List Reservation) (m : Nat) :
    m ∈ unavailableSlots rows ↔ ∃ r ∈ rows, m ∈ slotsFrom r.start_time r.end_time := by
  induction rows with
  | nil => simp [unavailableSlots]
  | cons r rest ih => simp [unavailableSlots, List.mem_append, ih]

/-- The expansion distributes over list append. -/
theorem unavailableSlots_append (a b : List Reservation) :
    unavailableSlots (a ++ b) = unavailableSlots a ++ unavailableSlots b := by
  induction a with
  | nil => simp [unavailableSlots]
  | cons r rest ih => simp [unavailableSlots, ih]

/-- Membership in the rows returned by the date/car/status SQL filter. -/
theorem mem_fetchReserved (db : List Reservation) (date : Nat) (car : String)
    (r : Reservation) :
    r ∈ fetchReserved db date car ↔
      r ∈ db ∧ r.date = date ∧ r.car = car ∧ r.status = Status.Reserved := by
  simp [fetchReserved, List.mem_filter]

/-- The blocked-slot set distributes over append of the underlying table. -/
theorem blockedSlots_append (a b : List Reservation) (date : Nat) (car : String) :
    blockedSlots (a ++ b) date car = blockedSlots a date car ++ blockedSlots b date car := by
  unfold blockedSlots fetchReserved
  rw [List.filter_append, unavailableSlots_append]

/-- A row whose stored end is at or before its stored start blocks nothing:
dropping it from the front of the table leaves the blocked set unchanged. -/
theorem blockedSlots_cons_cross (r : Reservation) (l : List Reservation)
    (date : Nat) (car : String) (h : r.end_time ≤ r.start_time) :
    blockedSlots (r :: l) date car = blockedSlots l date car := by
  unfold blockedSlots fetchReserved
  by_cases hp : r.date = date ∧ r.car = car ∧ r.status = Status.Reserved
  · simp [hp, List.filter_cons, unavailableSlots,
      slotsFrom_eq_nil r.start_time r.end_time h]
  · simp [hp, List.filter_cons]

/-- Membership in the selectable-start list: a slot of the lattice, at or after
the carried-over minimum (when one is set), and not blocked. -/
theorem mem_availableStartSlots (blocked : List Nat) (minS : Option Nat) (t : Nat) :
    t ∈ availableStartSlots blocked minS ↔
      t ∈ allSlots ∧ (∀ T, minS = some T → T ≤ t) ∧ t ∉ blocked := by
  cases minS with
  | none => simp [availableStartSlots, List.mem_filter]
  | some l => simp [availableStartSlots, List.mem_filter]

/-- Membership in `validDurations`: a candidate from the fixed list such that
every Reserved row on that car/date satisfies the SQL non-overlap test against
the wrapped end `(s + d) % 1440`. -/
theorem mem_validDurations (db : List Reservation) (car : String) (date : Nat)
    (s d : Nat) :
    d ∈ validDurations db car date s ↔
      d ∈ durationsList ∧
      ∀ r ∈ db, r.car = car → r.date = date → r.status = Status.Reserved →
        (r.end_time ≤ s ∨ (s + d) % 1440 ≤ r.start_time) := by
  simp only [validDurations, List.mem_filter, overlapQuery, List.isEmpty_iff,
    List.filter_eq_nil_iff, decide_eq_true_eq, ge_iff_le, not_or, not_and, not_not]
  constructor
  · rintro ⟨hd, hall⟩
    refine ⟨hd, fun r hr hcar hdate hst => ?_⟩
    have h := hall r hr hcar hdate hst
    omega
  · rintro ⟨hd, hall⟩
    refine ⟨hd, fun r hr hcar hdate hst => ?_⟩
    have h := hall r hr hcar hdate hst
    omega

/-- The day lattice is strictly increasing. -/
theorem allSlots_pairwise : allSlots.Pairwise (· < ·) := by decide

/-! ### Claim C1 -/

/-- Claim C1 as stated is false.  With the single existing Reserved booking
13:00-14:00 (`resA`), start 12:00 passes the start-slot filter and duration
720 is accepted by `valid_durations` (its end, midnight, is rendered by
`strftime` as the wrapped "00:00", making the SQL test
`NOT (end_time <= '12:00' OR start_time >= '00:00')` vacuously false),
yet the created interval `[12:00, 24:00)` overlaps `[13:00, 14:00)` under the
overlap test of the spec. -/
theorem c1_counterexample :
    resA ∈ fetchReserved db1 20240601 "VOXY" ∧
    720 ∈ availableStartSlots (blockedSlots db1 20240601 "VOXY") none ∧
    720 ∈ validDurations db1 "VOXY" 20240601 720 ∧
    intervalsOverlap 720 (720 + 720) resA.start_time resA.end_time := by
  refine ⟨by decide, by decide, by decide, by decide⟩

/-- Claim C1, amended: provided the newly accepted interval ends strictly
before midnight (`s + d < 1440`, so the stored end time is not wrapped), a
duration accepted by `valid_durations` never overlaps the stored interval of
any existing Reserved reservation on the same car and date. -/
theorem c1_no_double_booking (db : List Reservation) (car : String) (date : Nat)
    (s d : Nat) (A : Reservation)
    (hA : A ∈ fetchReserved db date car)
    (hd : d ∈ validDurations db car date s)
    (hnw : s + d < 1440) :
    ¬ intervalsOverlap s (s + d) A.start_time A.end_time := by
  rw [mem_fetchReserved] at hA
  rw [mem_validDurations] at hd
  have h := hd.2 A hA.1 hA.2.2.1 hA.2.1 hA.2.2.2
  rw [Nat.mod_eq_of_lt hnw] at h
  unfold intervalsOverlap
  omega

/-- Witness for `c1_no_double_booking` at the concrete table `db1`,
start 10:00 and duration 60. -/
theorem c1_no_double_booking_witness :
    (resA ∈ fetchReserved db1 20240601 "VOXY" ∧
     60 ∈ validDurations db1 "VOXY" 20240601 600 ∧
     600 + 60 < 1440) ∧
    ¬ intervalsOverlap 600 (600 + 60) resA.start_time resA.end_time :=
  ⟨⟨by decide, by decide, by decide⟩,
   c1_no_double_booking db1 "VOXY" 20240601 600 60 resA
     (by decide) (by decide) (by decide)⟩

/-! ### Claim C2 -/

/-- Claim C2 as stated is false: with the single existing Reserved booking
13:00-14:00 (`db1`) and start 12:00, candidate 720 is accepted by the code's
`valid_durations` although the proposed interval `[12:00, 24:00)` overlaps
`[13:00, 14:00)`, so the acceptance criterion worded in the claim
(`specValidDurations`, whose end `startTime + d` is not wrapped) rejects it. -/
theorem c2_counterexample :
    720 ∈ validDurations db1 "VOXY" 20240601 720 ∧
    720 ∉ specValidDurations db1 "VOXY" 20240601 720 := by
  refine ⟨by decide, by decide⟩

/-- Claim C2, amended: `valid_durations` accepts a candidate `d` iff `d` comes
from the fixed candidate list and every Reserved reservation on that car/date
passes the SQL test against the wrapped end `(startTime + d) % 1440` (the
"HH:MM" rendering of the end datetime), i.e.
`r.end_time <= startTime OR (startTime + d) % 1440 <= r.start_time`.
For candidates with `startTime + d < 1440` this is exactly the claim's
non-overlap criterion; for candidates reaching or crossing midnight the code
compares against the wrapped end instead of `startTime + d`. -/
theorem c2_validDurations_characterization (db : List Reservation) (car : String)
    (date : Nat) (s d : Nat) :
    d ∈ validDurations db car date s ↔
      d ∈ durationsList ∧
      ∀ r ∈ db, r.car = car → r.date = date → r.status = Status.Reserved →
        (r.end_time ≤ s ∨ (s + d) % 1440 ≤ r.start_time) :=
  mem_validDurations db car date s d

/-! ### Claim C3 -/

/-- Claim C3: a Reserved record whose stored end time of day, compared as a
time, is at or before its stored start time (a midnight-crossing booking)
contributes no slots at all to the blocked set - the whole blocked set is the
one computed from the remaining records - and every lattice mark from its
start time onwards that is not blocked by the other reservations and is at or
after the session minimum remains a selectable start on that date. -/
theorem c3_midnight_blocks_nothing (l1 l2 : List Reservation) (r : Reservation)
    (date : Nat) (car : String) (m : Nat) (minS : Option Nat)
    (hcross : r.end_time ≤ r.start_time)
    (hdate : r.date = date) (hcar : r.car = car) (hst : r.status = Status.Reserved)
    (hm : m ∈ allSlots) (hge : r.start_time ≤ m)
    (hnb : m ∉ blockedSlots (l1 ++ l2) date car)
    (hmin : ∀ T, minS = some T → T ≤ m) :
    blockedSlots (l1 ++ [r] ++ l2) date car = blockedSlots (l1 ++ l2) date car ∧
    m ∈ availableStartSlots (blockedSlots (l1 ++ [r] ++ l2) date car) minS := by
  have hb : blockedSlots (l1 ++ [r] ++ l2) date car = blockedSlots (l1 ++ l2) date car := by
    simp [blockedSlots_append, blockedSlots_cons_cross r l2 date car hcross]
  refine ⟨hb, ?_⟩
  rw [hb, mem_availableStartSlots]
  exact ⟨hm, hmin, hnb⟩

/-- Witness for `c3_midnight_blocks_nothing`: the midnight-crossing booking
`r3` alone blocks nothing, and its own start 23:00 stays selectable. -/
theorem c3_witness :
    (r3.end_time ≤ r3.start_time ∧ 1380 ∈ allSlots ∧
     1380 ∉ blockedSlots ([] ++ []) 1 "VOXY") ∧
    (blockedSlots ([] ++ [r3] ++ []) 1 "VOXY" = blockedSlots ([] ++ []) 1 "VOXY" ∧
     1380 ∈ availableStartSlots (blockedSlots ([] ++ [r3] ++ []) 1 "VOXY") none) :=
  ⟨⟨by decide, by decide, by decide⟩,
   c3_midnight_blocks_nothing [] [] r3 1 "VOXY" 1380 none
     (by decide) (by decide) (by decide) (by decide) (by decide) (by decide)
     (by decide) (by simp)⟩

/-! ### Claim C4 -/

/-- Claim C4: a mark `m` is blocked for `(date, car)` iff some Reserved
reservation of the table matching that car and date reaches `m` when its
half-open interval is stepped in 15-minute increments from its start time;
Cancelled or non-matching reservations, and degenerate intervals, contribute
nothing. -/
theorem c4_blockedSlots_characterization (db : List Reservation) (date : Nat)
    (car : String) (m : Nat) :
    m ∈ blockedSlots db date car ↔
      ∃ r ∈ db, r.status = Status.Reserved ∧ r.car = car ∧ r.date = date ∧
        ∃ k, m = r.start_time + 15 * k ∧ m < r.end_time := by
  unfold blockedSlots
  rw [mem_unavailableSlots]
  constructor
  · rintro ⟨r, hr, hm⟩
    rw [mem_fetchReserved] at hr
    rw [mem_slotsFrom] at hm
    exact ⟨r, hr.1, hr.2.2.2, hr.2.2.1, hr.2.1, hm⟩
  · rintro ⟨r, hr, hst, hcar, hdate, hm⟩
    refine ⟨r, ?_, ?_⟩
    · rw [mem_fetchReserved]
      exact ⟨hr, hdate, hcar, hst⟩
    · rw [mem_slotsFrom]
      exact hm

/-! ### Claim C5 -/

/-- Claim C5: the selectable-start list consists of exactly the lattice slots
that are not blocked and, when a minimum start is set, at or after it; it is a
sublist of the lattice (hence in the lattice's chronological order) and is
strictly increasing. -/
theorem c5_selectable_starts (blocked : List Nat) (minS : Option Nat) :
    (∀ t, t ∈ availableStartSlots blocked minS ↔
        t ∈ allSlots ∧ (∀ T, minS = some T → T ≤ t) ∧ t ∉ blocked) ∧
    List.Sublist (availableStartSlots blocked minS) allSlots ∧
    (availableStartSlots blocked minS).Pairwise (· < ·) := by
  refine ⟨fun t => mem_availableStartSlots blocked minS t, ?_, ?_⟩
  · exact List.filter_sublist allSlots
  · exact allSlots_pairwise.sublist (List.filter_sublist allSlots)

/-! ### Claim C6 -/

/-- Claim C6: with bookings 09:00-10:00 and 12:00-13:00 for VOXY on
2024-06-01 and chosen start 10:00, `valid_durations` accepts every candidate
from 30 to 120 minutes (the 120-minute end 12:00 only touches the second
booking's start and ends are exclusive) and rejects 135 minutes (end 12:15
overlaps 12:00-13:00). -/
theorem c6_scenario_durations :
    30 ∈ validDurations db6 "VOXY" 20240601 600 ∧
    45 ∈ validDurations db6 "VOXY" 20240601 600 ∧
    60 ∈ validDurations db6 "VOXY" 20240601 600 ∧
    75 ∈ validDurations db6 "VOXY" 20240601 600 ∧
    90 ∈ validDurations db6 "VOXY" 20240601 600 ∧
    105 ∈ validDurations db6 "VOXY" 20240601 600 ∧
    120 ∈ validDurations db6 "VOXY" 20240601 600 ∧
    135 ∉ validDurations db6 "VOXY" 20240601 600 := by
  decide

/-! ### Claim C7 -/

/-- Rendering the form for the date already stored in the session leaves the
session state unchanged. -/
theorem renderReset_of_same (st : SessionState) (D : Nat)
    (h : st.lastEndDate = some D) : renderReset st D = st := by
  unfold renderReset
  rw [if_neg (by simp [h])]

/-- The form-render reset always leaves the rendered date in the state. -/
theorem renderReset_lastEndDate (st : SessionState) (D : Nat) :
    (renderReset st D).lastEndDate = some D := by
  unfold renderReset
  split
  · rfl
  · next h =>
    push_neg at h
    exact h

/-- A run of renders for the date already in the state changes nothing. -/
theorem runTrace_evals_const (st : SessionState) (D : Nat)
    (h : st.lastEndDate = some D) :
    ∀ evs : List Event, (∀ e ∈ evs, e = Event.eval D) → runTrace st evs = st := by
  intro evs
  induction evs with
  | nil => intro _; rfl
  | cons ev rest ih =>
    intro hevs
    have hev : ev = Event.eval D := hevs ev (List.mem_cons_self ev rest)
    subst hev
    show runTrace (stepState st (Event.eval D)) rest = st
    rw [show stepState st (Event.eval D) = st from renderReset_of_same st D h]
    exact ih (fun e he => hevs e (List.mem_cons_of_mem _ he))

/-- After rendering for date `D` and then creating a reservation whose stored
end time of day is `T`, the session state is exactly `(some T, some D)`. -/
theorem runTrace_create (st : SessionState) (D T : Nat) :
    runTrace st [Event.eval D, Event.create T] = ⟨some T, some D⟩ := by
  show SessionState.mk (some T) (renderReset st D).lastEndDate = ⟨some T, some D⟩
  rw [renderReset_lastEndDate]

/-- Claim C7 as stated is false: after creating a reservation ending at 10:00
(`T = 600`) on date `1`, an evaluation for a different date (`2`) resets the
carry-over, so a later evaluation back on date `1` has no minimum-start
filter and offers 00:00, a start strictly below `T`. -/
theorem c7_counterexample :
    (renderReset (runTrace ⟨none, none⟩
        [Event.eval 1, Event.create 600, Event.eval 2]) 1).lastEndTime = none ∧
    0 ∈ availableStartSlots []
      (renderReset (runTrace ⟨none, none⟩
        [Event.eval 1, Event.create 600, Event.eval 2]) 1).lastEndTime ∧
    0 < 600 := by
  refine ⟨by decide, by decide, by decide⟩

/-- Claim C7, amended: after a creation ending at `T` on date `D`, every
subsequent evaluation for date `D` with no intervening evaluation for a
different date excludes all start times below `T`, while an evaluation for a
different date resets the carry-over so that no minimum-start filter applies
there. -/
theorem c7_carry_over_amended (st : SessionState) (D T : Nat) (evs : List Event)
    (blocked : List Nat) (t : Nat) (Dother : Nat)
    (hevs : ∀ e ∈ evs, e = Event.eval D)
    (ht : t ∈ availableStartSlots blocked
      (renderReset (runTrace (runTrace st [Event.eval D, Event.create T]) evs) D).lastEndTime)
    (hD : Dother ≠ D) :
    T ≤ t ∧
    (renderReset (runTrace st [Event.eval D, Event.create T]) Dother).lastEndTime = none := by
  have h1 : runTrace st [Event.eval D, Event.create T] = ⟨some T, some D⟩ :=
    runTrace_create st D T
  constructor
  · rw [h1, runTrace_evals_const ⟨some T, some D⟩ D rfl evs hevs,
      renderReset_of_same ⟨some T, some D⟩ D rfl] at ht
    rw [mem_availableStartSlots] at ht
    exact ht.2.1 T rfl
  · rw [h1]
    unfold renderReset
    rw [if_pos (by simpa using Ne.symm hD)]

/-- Witness for `c7_carry_over_amended`: a session on date `1` creating a
booking that ends at 10:00, followed by no further events. -/
theorem c7_witness :
    ((2 : Nat) ≠ 1 ∧
     600 ∈ availableStartSlots []
       (renderReset (runTrace (runTrace ⟨none, none⟩
         [Event.eval 1, Event.create 600]) []) 1).lastEndTime) ∧
    (600 ≤ 600 ∧
     (renderReset (runTrace (⟨none, none⟩ : SessionState)
       [Event.eval 1, Event.create 600]) 2).lastEndTime = none) :=
  ⟨⟨by decide, by decide⟩,
   c7_carry_over_amended ⟨none, none⟩ 1 600 [] [] 600 2
     (by simp) (by decide) (by decide)⟩

/-! ### Claim C8 -/

/-- Claim C8: the slot lattice has exactly 96 entries, starts at 00:00, ends
at 23:45, steps by 15 minutes between consecutive entries (it is the
arithmetic progression of 96 terms from 0 with step 15), and is strictly
increasing. -/
theorem c8_all_slots_lattice :
    allSlots.length = 96 ∧
    allSlots.head? = some 0 ∧
    allSlots.getLast? = some 1425 ∧
    allSlots = List.range' 0 96 15 ∧
    allSlots.Pairwise (· < ·) := by
  decide

/-! ### Claim C9 -/

/-- Claim C9: submitting with a name that is empty or whitespace-only fails
with the validation error and mutates nothing - the table and the session
state are returned unchanged. -/
theorem c9_validation_no_mutation (db : List Reservation) (st : SessionState)
    (name : String) (reserve_date : Nat) (car : String) (start_time dur : Nat)
    (hw : ∀ c ∈ name.data, isPySpace c = true) :
    handleSubmit db st name reserve_date car start_time dur =
      (db, st, SubmitResult.validationError) := by
  have h1 : name.data.dropWhile isPySpace = [] := List.dropWhile_eq_nil_iff.2 hw
  have h2 : pyStrip name = "" := by
    unfold pyStrip
    rw [h1]
    rfl
  unfold handleSubmit
  rw [if_pos h2]

/-- Witness for `c9_validation_no_mutation` at a whitespace-only name: an
ideographic full-width space (U+3000) followed by an ASCII space, both of
which `str.strip()` removes. -/
theorem c9_witness :
    handleSubmit [] ⟨none, none⟩ "　 " 1 "VOXY" 600 30 =
      ([], (⟨none, none⟩ : SessionState), SubmitResult.validationError) :=
  c9_validation_no_mutation [] ⟨none, none⟩ "　 " 1 "VOXY" 600 30 (by decide)

/-! ### Claim C10 -/

/-- Re-sweeping a row has no further effect. -/
theorem expireRow_idem (today : Nat) (r : Reservation) :
    expireRow today (expireRow today r) = expireRow today r := by
  unfold expireRow
  by_cases h : r.date < today ∧ r.status = Status.Reserved
  · rw [if_pos h, if_neg (by simp)]
  · rw [if_neg h, if_neg h]

/-- Claim C10: one expiry sweep cancels exactly the Reserved rows dated
strictly before today (every other field, and every other row, is unchanged;
a row ends up Cancelled iff it already was or was Reserved and stale), and
sweeping a second time with the same today changes nothing further. -/
theorem c10_expiry_sweep (db : List Reservation) (today : Nat) (i : Nat)
    (h1 : i < db.length) (h2 : i < (cancelExpired db today).length) :
    (cancelExpired db today).length = db.length ∧
    ((cancelExpired db today).get ⟨i, h2⟩).name = (db.get ⟨i, h1⟩).name ∧
    ((cancelExpired db today).get ⟨i, h2⟩).date = (db.get ⟨i, h1⟩).date ∧
    ((cancelExpired db today).get ⟨i, h2⟩).start_time = (db.get ⟨i, h1⟩).start_time ∧
    ((cancelExpired db today).get ⟨i, h2⟩).end_time = (db.get ⟨i, h1⟩).end_time ∧
    ((cancelExpired db today).get ⟨i, h2⟩).car = (db.get ⟨i, h1⟩).car ∧
    (((cancelExpired db today).get ⟨i, h2⟩).status = Status.Cancelled ↔
      ((db.get ⟨i, h1⟩).status = Status.Cancelled ∨
       ((db.get ⟨i, h1⟩).status = Status.Reserved ∧ (db.get ⟨i, h1⟩).date < today))) ∧
    cancelExpired (cancelExpired db today) today = cancelExpired db today := by
  have hidem : cancelExpired (cancelExpired db today) today = cancelExpired db today := by
    simp only [cancelExpired, List.map_map]
    congr 1
    funext r
    exact expireRow_idem today r
  have hget : (cancelExpired db today).get ⟨i, h2⟩ = expireRow today (db.get ⟨i, h1⟩) := by
    simp [cancelExpired]
  refine ⟨by simp [cancelExpired], ?_⟩
  rw [hget]
  unfold expireRow
  by_cases hcond : (db.get ⟨i, h1⟩).date < today ∧ (db.get ⟨i, h1⟩).status = Status.Reserved
  · rw [if_pos hcond]
    exact ⟨rfl, rfl, rfl, rfl, rfl,
      ⟨fun _ => Or.inr ⟨hcond.2, hcond.1⟩, fun _ => rfl⟩, hidem⟩
  · rw [if_neg hcond]
    refine ⟨rfl, rfl, rfl, rfl, rfl, ?_, hidem⟩
    constructor
    · exact fun h => Or.inl h
    · rintro (h | ⟨hs, hd⟩)
      · exact h
      · exact absurd ⟨hd, hs⟩ hcond

/-- Witness for `c10_expiry_sweep`: sweeping the one-row table `db1` with
today = 2024-06-02 cancels its (stale, Reserved) single row. -/
theorem c10_witness :
    (cancelExpired db1 20240602).length = db1.length ∧
    ((cancelExpired db1 20240602).get ⟨0, by decide⟩).name = (db1.get ⟨0, by decide⟩).name ∧
    ((cancelExpired db1 20240602).get ⟨0, by decide⟩).date = (db1.get ⟨0, by decide⟩).date ∧
    ((cancelExpired db1 20240602).get ⟨0, by decide⟩).start_time = (db1.get ⟨0, by decide⟩).start_time ∧
    ((cancelExpired db1 20240602).get ⟨0, by decide⟩).end_time = (db1.get ⟨0, by decide⟩).end_time ∧
    ((cancelExpired db1 20240602).get ⟨0, by decide⟩).car = (db1.get ⟨0, by decide⟩).car ∧
    (((cancelExpired db1 20240602).get ⟨0, by decide⟩).status = Status.Cancelled ↔
      ((db1.get ⟨0, by decide⟩).status = Status.Cancelled ∨
       ((db1.get ⟨0, by decide⟩).status = Status.Reserved ∧ (db1.get ⟨0, by decide⟩).date < 20240602))) ∧
    cancelExpired (cancelExpired db1 20240602) 20240602 = cancelExpired db1 20240602 :=
  c10_expiry_sweep db1 20240602 0 (by decide) (by decide)

end CarApp
